import Mathlib

/-!
# Verification of the DNS diagnostic engine (`MCPLocal/servidor.py`)

Shallow embedding of the diagnostic core: the four public entry points
`salud_dns`, `correo_politicas`, `estado_dnssec` and `propagacion`, together
with the shared resolver helpers (`resolve_rr`, `get_authoritative_ns_ips`,
`query_authoritative`, `to_str_list`, `flatten_rr_text`).

Modelling conventions:
* The DNS library (dnspython) is abstracted as an environment `DnsEnv`: every
  network query and every fallible library call is a field of the environment.
  Library calls that can raise are modelled with `Except String α`; a Python
  exception escaping a function is modelled by the function returning
  `Except.error`.
* Record objects expose exactly the attributes the engine reads
  (`to_text()`, `.target`, `.address`, `.algorithm`, `.key_tag()`,
  `.digest_type`), collected in `DnsRecord`.
* Python truthiness of a possibly-`None` rrset (`if rr:`) is `truthy`:
  non-`None` and non-empty.
* The side-effect log line (`log_event`) is pure best-effort I/O with no
  influence on any report field, and is not modelled.
-/

/-- One DNS resource record as seen through the record library.  `text` is
`r.to_text()`; `target` is `str(r.target)` for records that have a target
(NS/CNAME); `address` is `r.address` when the record has one (A/AAAA);
`algorithm`/`keyTag` are the DNSKEY fields `r.algorithm` and `r.key_tag()`;
`digestType` is the DS field `r.digest_type`. -/
structure DnsRecord where
  text : String
  target : String := ""
  address : Option String := none
  algorithm : Nat := 0
  keyTag : Nat := 0
  digestType : Nat := 0
deriving DecidableEq

/-- A record set: the records plus the common TTL (`rrset.ttl`). -/
structure RRset where
  records : List DnsRecord
  ttl : Nat := 0
deriving DecidableEq

/-- Behaviour of one `resolver.resolve(name, rtype, raise_on_no_answer=False)`
call: it either returns an answer object (whose `.rrset` may still be `None`),
or raises `NXDOMAIN`, `NoAnswer`, or another `DNSException`. -/
inductive ResolveOutcome where
  | ans (rrset : Option RRset)
  | nxdomain
  | noAnswer
  | dnsError (excName : String)
deriving DecidableEq

/-- One rrset of a raw DNS answer section, as inspected by the SOA-signature
step of `estado_dnssec`: its rdata type and, for RRSIG, the covered type. -/
structure WireRRset where
  rdtype : String
  covers : String := ""
deriving DecidableEq

/-- The environment: all library/network behaviour the engine depends on.
`recQuery name rtype` is a query through the default stub resolver;
`recQueryAt ip name rtype` is a query through a resolver configured with the
single nameserver `ip` (used by `propagacion`); `authResp name rtype nsIp`
is the raw UDP query of `query_authoritative` returning the answer sections
(or an exception); `fromText` models `dns.name.from_text`, which raises on a
syntactically malformed name; `randLabel` is the label drawn by
`random_label()` (10 random lowercase/digit characters) for this run;
`udpSoa` models the `make_query`+`dns.query.udp` SOA/DNSSEC probe of
`estado_dnssec` (including the `nameservers[0]` access, any of which can
raise); `validateSig` models `dns.dnssec.validate` on the SOA rrset, the
covering RRSIG and the keyring (keyed by name text, key tag, algorithm);
`makeDS` models `dns.dnssec.make_ds`, returning the canonical text of the
computed DS rdata (equality of these texts models rdata equality). -/
structure DnsEnv where
  recQuery : String → String → ResolveOutcome
  recQueryAt : String → String → String → ResolveOutcome
  authResp : String → String → String → Except String (List RRset)
  fromText : String → Except String Unit
  randLabel : String
  udpSoa : String → Except String (List WireRRset)
  validateSig : WireRRset → WireRRset → List (String × Nat × Nat) → Except String Unit
  makeDS : String → DnsRecord → Nat → Except String String

/-- Python truthiness of a possibly-`None` rrset (`if rr:`). -/
def truthy : Option RRset → Bool
  | none => false
  | some rs => !rs.records.isEmpty

/-- The records of a possibly-`None` rrset (`for r in (rr or [])`). -/
def recordsOf : Option RRset → List DnsRecord
  | none => []
  | some rs => rs.records

/-- `resolve_rr`: returns `(ans.rrset, None)` on success and `(None, reason)`
on `NXDOMAIN` / `NoAnswer` / any other `DNSException`.  This is the only place
recursive-lookup exceptions are handled, and it swallows all of them. -/
def resolve_rr (o : ResolveOutcome) : Option RRset × Option String :=
  match o with
  | .ans rs => (rs, none)
  | .nxdomain => (none, some "NXDOMAIN")
  | .noAnswer => (none, some "NO_ANSWER")
  | .dnsError n => (none, some ("DNS_ERROR:" ++ n))

/-- The rrset (first component) a recursive lookup produces. -/
def recLookup (env : DnsEnv) (name rtype : String) : Option RRset :=
  (resolve_rr (env.recQuery name rtype)).1

/-- `to_str_list`: `[r.to_text() for r in rrset]`; iterating `None` raises
`TypeError`, which the `except` turns into `[]`. -/
def to_str_list (rs : Option RRset) : List String :=
  (recordsOf rs).map (·.text)

/-- `flatten_rr_text`: `[]` for a falsy rrset, else the record texts. -/
def flatten_rr_text (rs : Option RRset) : List String :=
  (recordsOf rs).map (·.text)

/-- Python `s.rstrip(c)` for a single strip character. -/
def pyRstrip (c : Char) (s : String) : String :=
  ⟨(s.data.reverse.dropWhile (· == c)).reverse⟩

/-- Python `s.strip(c)` for a single strip character: removes ALL leading and
trailing occurrences of `c`. -/
def pyStripChar (c : Char) (s : String) : String :=
  ⟨((s.data.dropWhile (· == c)).reverse.dropWhile (· == c)).reverse⟩

/-- Accumulating splitter over the character list: tokens are maximal runs of
non-whitespace characters. -/
def splitWsAux : List Char → List Char → List String
  | [], acc => if acc.isEmpty then [] else [⟨acc.reverse⟩]
  | c :: cs, acc =>
    if c.isWhitespace then
      (if acc.isEmpty then [] else [⟨acc.reverse⟩]) ++ splitWsAux cs []
    else splitWsAux cs (c :: acc)

/-- Python `s.split()` (no argument): split on whitespace runs, no empties. -/
def pySplitWs (s : String) : List String := splitWsAux s.data []

/-- Python `s.strip()` on ASCII whitespace. -/
def pyTrim (s : String) : String :=
  ⟨((s.data.dropWhile Char.isWhitespace).reverse.dropWhile Char.isWhitespace).reverse⟩

/-- ASCII lower-casing of one character (the record texts the engine
lower-cases are ASCII). -/
def asciiLower (c : Char) : Char :=
  if 65 ≤ c.toNat ∧ c.toNat ≤ 90 then Char.ofNat (c.toNat + 32) else c

/-- Python `s.lower()` on ASCII text. -/
def pyLower (s : String) : String := ⟨s.data.map asciiLower⟩

/-- Python `s.startswith(pre)`. -/
def pyStartsWith (pre s : String) : Bool := List.isPrefixOf pre.data s.data

/-- Digits possibly separated by single underscores (tail position of a
Python integer literal: every underscore must sit between two digits). -/
def pyDigitsCore : List Char → Bool
  | [] => true
  | ['_'] => false
  | '_' :: c :: cs => c.isDigit && pyDigitsCore (c :: cs)
  | c :: cs => c.isDigit && pyDigitsCore cs

/-- A valid unsigned Python decimal integer literal body. -/
def pyIsIntLiteral : List Char → Bool
  | [] => false
  | c :: cs => c.isDigit && pyDigitsCore cs

/-- Numeric value of a digit string, skipping underscores. -/
def digitsToNat (cs : List Char) : Nat :=
  cs.foldl (fun acc c => if c.isDigit then acc * 10 + (c.toNat - 48) else acc) 0

/-- Model of Python `int(s)` on an ASCII string: surrounding whitespace is
ignored, an optional sign is allowed, then a decimal literal (underscores
between digits permitted); anything else raises `ValueError` (`none`). -/
def pyInt? (s : String) : Option Int :=
  let t := pyTrim s
  match t.data with
  | '+' :: cs => if pyIsIntLiteral cs then some (digitsToNat cs : Int) else none
  | '-' :: cs => if pyIsIntLiteral cs then some (-(digitsToNat cs : Int)) else none
  | cs => if pyIsIntLiteral cs then some (digitsToNat cs : Int) else none

/-- First-occurrence deduplication with an accumulator of seen elements. -/
def pyDedupAux [DecidableEq α] : List α → List α → List α
  | [], _ => []
  | x :: xs, seen =>
    if x ∈ seen then pyDedupAux xs seen else x :: pyDedupAux xs (x :: seen)

/-- Python `list(dict.fromkeys(l))`: deduplicate preserving first-seen order. -/
def pyDedup [DecidableEq α] (l : List α) : List α := pyDedupAux l []

/-- Concatenation of the images of `f`, in order (a Python nested loop that
`extend`s an accumulator list). -/
def concatMap (f : α → List β) : List α → List β
  | [] => []
  | x :: xs => f x ++ concatMap f xs

/-- Python `sorted` on strings: stable ascending sort by code-point order. -/
def pySortedStr (l : List String) : List String :=
  l.insertionSort (· ≤ ·)

/-- Python `sorted` on ints (here: naturals). -/
def pySortedNat (l : List Nat) : List Nat :=
  l.insertionSort (· ≤ ·)

/-- A single-quote character (Python's string-repr quote). -/
def pyQuote : String := ⟨[Char.ofNat 39]⟩

/-- Python `str(list_of_strings)` as interpolated by an f-string, for strings
that need no escaping (IP-address texts): each element in single quotes,
joined by a comma and space, in square brackets. -/
def pyReprStrList (l : List String) : String :=
  "[" ++ String.intercalate ", " (l.map (fun s => pyQuote ++ s ++ pyQuote)) ++ "]"

/-- Python `str(list_of_ints)` as interpolated by an f-string. -/
def pyReprNatList (l : List Nat) : String :=
  "[" ++ String.intercalate ", " (l.map toString) ++ "]"

/-- A finding (`Hallazgo` dataclass): kind, severity, message. -/
structure Hallazgo where
  tipo : String
  severidad : String
  detalle : String
deriving DecidableEq

/-- A per-record-type map with the fixed keys `A`/`AAAA`/`NS`/`SOA`. -/
structure SeccionTipos where
  A : List String
  AAAA : List String
  NS : List String
  SOA : List String
deriving DecidableEq

/-- `ResultadoSaludDNS` dataclass. -/
structure ResultadoSaludDNS where
  dominio : String
  recursivo : SeccionTipos
  autoritativo : SeccionTipos
  hallazgos : List Hallazgo
deriving DecidableEq

/-- `ResultadoCorreo` dataclass. -/
structure ResultadoCorreo where
  dominio : String
  mx : List String
  spf : Option String
  dmarc : Option String
  hallazgos : List Hallazgo
deriving DecidableEq

/-- `ResultadoDNSSEC` dataclass. -/
structure ResultadoDNSSEC where
  dominio : String
  tiene_ds_en_padre : Bool
  dnskey_algoritmos : List Nat
  soa_firmada_valida : Option Bool
  detalles : List String
  hallazgos : List Hallazgo
deriving DecidableEq

/-- Per-resolver answers of `propagacion` (the fixed-key dict built for each
resolver IP). -/
structure Respuesta where
  A : List String
  AAAA : List String
  NS : List String
  TXT_sample : List String
deriving DecidableEq

/-- The per-type divergence maps of `propagacion` (fixed keys `A`/`AAAA`/`NS`;
each value is a dict keyed by resolver IP, modelled as an association list in
key order). -/
structure Diferencias where
  A : List (String × List String)
  AAAA : List (String × List String)
  NS : List (String × List String)
deriving DecidableEq

/-- `ResultadoPropagacion` dataclass.  The `respuestas` dict is modelled as an
association list keyed in Python dict insertion order (first occurrence of
each IP; re-querying a duplicated IP returns the same answers in this
deterministic model, so the overwrite is invisible). -/
structure ResultadoPropagacion where
  dominio : String
  resolutores : List String
  respuestas : List (String × Respuesta)
  diferencias : Diferencias
deriving DecidableEq

/-! ## Resolver client and authoritative discovery -/

/-- `query_authoritative`: a raw UDP query (recursion disabled, DNSSEC-OK) to
`nsIp`; returns the first answer-section rrset, `None` if the answer section is
empty (e.g. a delegation), and `None` on any exception (the `except` catches
everything). -/
def query_authoritative (env : DnsEnv) (name rtype nsIp : String) : Option RRset :=
  match env.authResp name rtype nsIp with
  | .error _ => none
  | .ok answer => answer.head?

/-- `get_authoritative_ns_ips`: resolve NS; if that lookup is falsy return
`[]`; otherwise, for each NS target resolve A then AAAA through the same stub
resolver, collect `r.address` (falling back to `str(r)`) for every record of
every truthy answer, and deduplicate preserving first-seen order. -/
def get_authoritative_ns_ips (env : DnsEnv) (domain : String) : List String :=
  let nsRR := recLookup env domain "NS"
  if truthy nsRR then
    pyDedup (concatMap (fun ns =>
      let host := pyRstrip '.' ns.target
      concatMap (fun typ =>
        let rr := recLookup env host typ
        if truthy rr then (recordsOf rr).map (fun r => r.address.getD r.text) else [])
        ["A", "AAAA"]) (recordsOf nsRR))
  else []

/-! ## `salud_dns` -/

/-- One authoritative section of the health report: query each of the first 4
discovered authoritative IPs for `typ`, keep the texts of truthy answers, then
`sorted(list(set(vistas)))`. -/
def autoritativoTipo (env : DnsEnv) (d typ : String) : List String :=
  let ips := (get_authoritative_ns_ips env d).take 4
  pySortedStr (pyDedup (concatMap (fun ip =>
    let rr := query_authoritative env d typ ip
    if truthy rr then flatten_rr_text rr else []) ips))

/-- The randomly labelled probe name: `f"{random_label()}.{dominio}".rstrip(".")`. -/
def wildcardSub (env : DnsEnv) (d : String) : String :=
  pyRstrip '.' (env.randLabel ++ "." ++ d)

/-- The A lookup of the wildcard probe name. -/
def wildcardProbe (env : DnsEnv) (d : String) : Option RRset :=
  recLookup env (wildcardSub env d) "A"

/-- Message of the `wildcard` finding, interpolating the probe name and the
Python list repr of the resolved address texts. -/
def wildcardMsg (sub : String) (addrs : List String) : String :=
  "Resuelve " ++ sub ++ " → " ++ pyReprStrList addrs ++ " (posible comodín)"

/-- Wildcard heuristic: `if rand_a and len(rand_a) > 0` (i.e. the probe's
answer is truthy) append the `wildcard` finding. -/
def hallWildcard (env : DnsEnv) (d : String) : List Hallazgo :=
  let ra := wildcardProbe env d
  if truthy ra then
    [⟨"wildcard", "warning", wildcardMsg (wildcardSub env d) (to_str_list ra)⟩]
  else []

/-- The TTL contributed by one recursive answer: present iff the rrset is
truthy. -/
def ttlOf : Option RRset → List Nat
  | none => []
  | some rs => if rs.records.isEmpty then [] else [rs.ttl]

/-- `ttl_vals`: TTLs of whichever of the recursive A/AAAA/NS/SOA answers are
truthy, in that order. -/
def ttlVals (env : DnsEnv) (d : String) : List Nat :=
  ttlOf (recLookup env d "A") ++ ttlOf (recLookup env d "AAAA") ++
  ttlOf (recLookup env d "NS") ++ ttlOf (recLookup env d "SOA")

/-- TTL-skew heuristic: when `ttl_vals` is non-empty and
`tmax >= 4 * max(1, tmin)`, append the `info` finding `ttls_desbalanceados`. -/
def hallTtl (env : DnsEnv) (d : String) : List Hallazgo :=
  let ttls := ttlVals env d
  match ttls.min?, ttls.max? with
  | some tmin, some tmax =>
    if 4 * max 1 tmin ≤ tmax then
      [⟨"ttls_desbalanceados", "info",
        "TTLs variados en apex (min=" ++ toString tmin ++ ", max=" ++ toString tmax ++ ")"⟩]
    else []
  | _, _ => []

/-- Dangling-CNAME heuristic: if the apex CNAME answer is truthy, resolve its
first record's target (dots stripped) for A and AAAA; if neither is truthy,
append the `error` finding `cname_colgante`.  (The surrounding `try/except` in
the source guards operations that cannot raise in this model.) -/
def hallCname (env : DnsEnv) (d : String) : List Hallazgo :=
  match recordsOf (recLookup env d "CNAME") with
  | [] => []
  | c :: _ =>
    let target := pyRstrip '.' c.target
    let aT := recLookup env target "A"
    let aaaaT := recLookup env target "AAAA"
    if !truthy aT && !truthy aaaaT then
      [⟨"cname_colgante", "error",
        "CNAME apunta a " ++ target ++ " que no resuelve A/AAAA"⟩]
    else []

/-- `salud_dns(dominio)`: recursive A/AAAA/NS/SOA/CNAME lookups, authoritative
sections over the first four discovered NS IPs, and the wildcard, TTL-skew and
dangling-CNAME heuristics (findings appended in that order).  Every fallible
operation it performs is wrapped in a handler in the source, so the function
is total: it always returns a structured report. -/
def salud_dns (env : DnsEnv) (dominio : String) : ResultadoSaludDNS :=
  { dominio := dominio
    recursivo :=
      { A := to_str_list (recLookup env dominio "A")
        AAAA := to_str_list (recLookup env dominio "AAAA")
        NS := (recordsOf (recLookup env dominio "NS")).map (fun r => pyRstrip '.' r.target)
        SOA := to_str_list (recLookup env dominio "SOA") }
    autoritativo :=
      { A := autoritativoTipo env dominio "A"
        AAAA := autoritativoTipo env dominio "AAAA"
        NS := autoritativoTipo env dominio "NS"
        SOA := autoritativoTipo env dominio "SOA" }
    hallazgos := hallWildcard env dominio ++ hallTtl env dominio ++ hallCname env dominio }

/-! ## `correo_politicas` -/

/-- The MX sort key: `int(s.split()[0])`, `none` when `split()[0]` raises
`IndexError` or `int(...)` raises `ValueError`. -/
def mxKey? (s : String) : Option Int :=
  match pySplitWs s with
  | [] => none
  | t :: _ => pyInt? t

/-- The MX sort key with the (unreachable in the sorting branch) default 0. -/
def mxKeyD (s : String) : Int := (mxKey? s).getD 0

/-- Comparison used by `sorted(..., key=lambda s: int(s.split()[0]))`. -/
def mxLe (a b : String) : Prop := mxKeyD a ≤ mxKeyD b

instance : DecidableRel mxLe := fun a b => Int.decLe (mxKeyD a) (mxKeyD b)

instance : IsTotal String mxLe := ⟨fun a b => le_total (mxKeyD a) (mxKeyD b)⟩

instance : IsTrans String mxLe := ⟨fun _ _ _ hab hbc => le_trans hab hbc⟩

/-- The `try: sorted(...) except: unsorted` of the MX block: if every entry's
key computes, stable-sort ascending by the key (Python's `sorted`); otherwise
the exception falls back to the plain textual order. -/
def mxSorted? (texts : List String) : List String :=
  if texts.all (fun s => (mxKey? s).isSome) then texts.insertionSort mxLe else texts

/-- The TXT scan shared by SPF and DMARC: the first record text that, after
`strip('"')` (ALL surrounding quote characters removed), lower-cases to
something starting with `pre`. -/
def buscarTxt (pre : String) (rs : Option RRset) : Option String :=
  ((recordsOf rs).map (fun r => pyStripChar '"' r.text)).find?
    (fun t => pyStartsWith pre (pyLower t))

/-- Python falsiness of the optional policy string (`if not spf_txt:`):
`None` and the empty string are falsy. -/
def pyFalsyStr : Option String → Bool
  | none => true
  | some s => s.data.isEmpty

/-- The `mx` list: sorted when the MX lookup is truthy, `[]` otherwise. -/
def mxListDe (env : DnsEnv) (d : String) : List String :=
  if truthy (recLookup env d "MX") then mxSorted? (to_str_list (recLookup env d "MX")) else []

/-- The `sin_mx` warning, emitted when the MX lookup is falsy. -/
def hallSinMx (env : DnsEnv) (d : String) : List Hallazgo :=
  if truthy (recLookup env d "MX") then []
  else [⟨"sin_mx", "warning", "El dominio no publica registros MX."⟩]

/-- The SPF value: first qualifying apex TXT value. -/
def spfDe (env : DnsEnv) (d : String) : Option String :=
  buscarTxt "v=spf1" (recLookup env d "TXT")

/-- The `sin_spf` warning, emitted when the SPF value is falsy. -/
def hallSinSpf (env : DnsEnv) (d : String) : List Hallazgo :=
  if pyFalsyStr (spfDe env d) then
    [⟨"sin_spf", "warning", "No se encontró SPF en TXT del apex."⟩]
  else []

/-- The DMARC value: first qualifying TXT value at `_dmarc.<dominio>`. -/
def dmarcDe (env : DnsEnv) (d : String) : Option String :=
  buscarTxt "v=dmarc1" (recLookup env ("_dmarc." ++ d) "TXT")

/-- The `sin_dmarc` warning, emitted when the DMARC value is falsy. -/
def hallSinDmarc (env : DnsEnv) (d : String) : List Hallazgo :=
  if pyFalsyStr (dmarcDe env d) then
    [⟨"sin_dmarc", "warning", "No se encontró política DMARC en _dmarc."⟩]
  else []

/-- `correo_politicas(dominio)`: MX (numerically sorted, with textual
fallback), SPF from apex TXT, DMARC from `_dmarc.<dominio>` TXT; `sin_mx`,
`sin_spf`, `sin_dmarc` warnings appended in that order when absent. -/
def correo_politicas (env : DnsEnv) (dominio : String) : ResultadoCorreo :=
  { dominio := dominio
    mx := mxListDe env dominio
    spf := spfDe env dominio
    dmarc := dmarcDe env dominio
    hallazgos := hallSinMx env dominio ++ hallSinSpf env dominio ++ hallSinDmarc env dominio }

/-! ## `estado_dnssec` -/

/-- The full (DNSKEY, DS) cross-product in loop order (`for key in dnskey_rr:
for ds in ds_rr:`). -/
def dsPairs (keys dss : List DnsRecord) : List (DnsRecord × DnsRecord) :=
  concatMap (fun k => dss.map (fun ds => (k, ds))) keys

/-- One iteration of the DS/DNSKEY comparison loop: recompute the DS for the
pair using the DS record's declared digest algorithm (which may raise) and
bump the counter when the recomputed rdata equals the published one. -/
def dsStep (env : DnsEnv) (d : String) (acc : Nat) (kd : DnsRecord × DnsRecord) :
    Except String Nat := do
  let c ← env.makeDS d kd.1 kd.2.digestType
  pure (if c == kd.2.text then acc + 1 else acc)

/-- The DS/DNSKEY comparison loop over the whole cross-product.  Any
`make_ds` exception (e.g. an unsupported digest type) aborts the whole loop
(the `try` wraps it entirely). -/
def countDsMatches (env : DnsEnv) (d : String) (keys dss : List DnsRecord) :
    Except String Nat :=
  (dsPairs keys dss).foldlM (dsStep env d) 0

/-- Whether one (DNSKEY, DS) pair matches: the recomputation succeeds and the
recomputed DS rdata equals the published one. -/
def dsMatchP (env : DnsEnv) (d : String) (kd : DnsRecord × DnsRecord) : Bool :=
  match env.makeDS d kd.1 kd.2.digestType with
  | .ok c => c == kd.2.text
  | .error _ => false

/-- Number of (DNSKEY, DS) pairs in the cross-product whose recomputed DS
rdata equals the published DS record. -/
def matchingPairs (env : DnsEnv) (d : String) (keys dss : List DnsRecord) : Nat :=
  (dsPairs keys dss).countP (dsMatchP env d)

/-- The last rrset of the answer satisfying `p` (the source loop keeps
overwriting `rrset_soa` / `rrsig_soa`, so the last match wins). -/
def lastMatching (p : WireRRset → Bool) : List WireRRset → Option WireRRset
  | [] => none
  | x :: xs =>
    match lastMatching p xs with
    | some y => some y
    | none => if p x then some x else none

/-- Result of the SOA-signature block of `estado_dnssec`. -/
inductive SoaOutcome where
  | validated
  | undetermined
  | failed (e : String)
deriving DecidableEq

/-- The SOA-signature validation block: issue the DNSSEC-OK SOA query to the
first configured recursive nameserver (any exception there fails the block);
pick the last SOA rrset and the last SOA-covering RRSIG of the answer; if
both are present and DNSKEY is truthy, build the keyring keyed by
`(dns.name.from_text(dominio.rstrip(".")), key_tag, algorithm)` and validate
(an exception fails the block); otherwise the result is undetermined.
(`from_text` inside the block re-parses the text of an already-parsed name
and cannot raise here.) -/
def soaStep (env : DnsEnv) (d : String) (dnskeyRR : Option RRset) : SoaOutcome :=
  match env.udpSoa d with
  | .error e => .failed e
  | .ok answer =>
    let rrsetSoa := lastMatching (fun r => r.rdtype == "SOA") answer
    let rrsigSoa := lastMatching (fun r => r.rdtype == "RRSIG" && r.covers == "SOA") answer
    match rrsetSoa, rrsigSoa with
    | some s, some g =>
      if truthy dnskeyRR then
        let keyring := (recordsOf dnskeyRR).map (fun k => (pyRstrip '.' d, k.keyTag, k.algorithm))
        match env.validateSig s g keyring with
        | .ok _ => .validated
        | .error e => .failed e
      else .undetermined
    | _, _ => .undetermined

/-- Message of the `ds_dnskey_mismatch` finding. -/
def mismatchMsg : String :=
  "Ningún DNSKEY coincide con DS del padre (posible ruptura de cadena)."

/-- Detail line of step 1 (DS at the parent). -/
def detDs (env : DnsEnv) (d : String) : List String :=
  if truthy (recLookup env d "DS") then
    ["DS en el padre: " ++ toString (recordsOf (recLookup env d "DS")).length ++ " registro(s)."]
  else ["No hay DS publicado en el padre."]

/-- The sorted distinct DNSKEY algorithm numbers. -/
def algosDe (env : DnsEnv) (d : String) : List Nat :=
  pySortedNat (pyDedup ((recordsOf (recLookup env d "DNSKEY")).map (·.algorithm)))

/-- Detail line of step 2 (DNSKEY at the apex). -/
def detDnskey (env : DnsEnv) (d : String) : List String :=
  if truthy (recLookup env d "DNSKEY") then
    ["DNSKEY presente: " ++ toString (recordsOf (recLookup env d "DNSKEY")).length ++
      " clave(s), algoritmos=" ++ pyReprNatList (algosDe env d)]
  else []

/-- The `sin_dnskey` error finding, emitted when DNSKEY is falsy. -/
def hallSinDnskey (env : DnsEnv) (d : String) : List Hallazgo :=
  if truthy (recLookup env d "DNSKEY") then []
  else [⟨"sin_dnskey", "error", "No se pudo obtener DNSKEY del dominio."⟩]

/-- The DS/DNSKEY comparison: run only when both sides are present; `none`
means skipped. -/
def cmpDs (env : DnsEnv) (d : String) : Option (Except String Nat) :=
  if truthy (recLookup env d "DS") && truthy (recLookup env d "DNSKEY") then
    some (countDsMatches env d (recordsOf (recLookup env d "DNSKEY"))
      (recordsOf (recLookup env d "DS")))
  else none

/-- The `ds_dnskey_mismatch` error finding: emitted exactly when the
comparison ran, raised no exception, and counted zero matches. -/
def hallMismatch (env : DnsEnv) (d : String) : List Hallazgo :=
  match cmpDs env d with
  | some (.ok 0) => [⟨"ds_dnskey_mismatch", "error", mismatchMsg⟩]
  | _ => []

/-- Detail line recorded when the DS/DNSKEY comparison raised. -/
def detCmp (env : DnsEnv) (d : String) : List String :=
  match cmpDs env d with
  | some (.error e) => ["Error comparando DS/DNSKEY: " ++ e]
  | _ => []

/-- The tri-state `soa_firmada_valida` flag. -/
def soaOkDe (env : DnsEnv) (d : String) : Option Bool :=
  match soaStep env d (recLookup env d "DNSKEY") with
  | .validated => some true
  | .undetermined => none
  | .failed _ => some false

/-- Detail line of the SOA validation step (none on exception: the finding
carries the information there). -/
def detSoa (env : DnsEnv) (d : String) : List String :=
  match soaStep env d (recLookup env d "DNSKEY") with
  | .validated => ["SOA validado contra RRSIG y DNSKEY (OK)."]
  | .undetermined => ["No se pudo validar SOA (faltan RRSIG/DNSKEY en respuesta autoritativa)."]
  | .failed _ => []

/-- The `firma_soa_invalida` warning finding carrying the failure detail. -/
def hallFirma (env : DnsEnv) (d : String) : List Hallazgo :=
  match soaStep env d (recLookup env d "DNSKEY") with
  | .failed e => [⟨"firma_soa_invalida", "warning", "No se validó SOA: " ++ e⟩]
  | _ => []

/-- `estado_dnssec(dominio)`.  `dns.name.from_text(dominio)` is evaluated
before any query and OUTSIDE every `try` block, so a malformed domain name
raises past the function boundary (modelled by `Except.error`); everything
after it is handled locally.  Detail lines and findings are appended in
source order. -/
def estado_dnssec (env : DnsEnv) (dominio : String) : Except String ResultadoDNSSEC := do
  let _ ← env.fromText dominio
  pure
    { dominio := dominio
      tiene_ds_en_padre := truthy (recLookup env dominio "DS")
      dnskey_algoritmos := algosDe env dominio
      soa_firmada_valida := soaOkDe env dominio
      detalles := detDs env dominio ++ detDnskey env dominio ++ detCmp env dominio ++
        detSoa env dominio
      hallazgos := hallSinDnskey env dominio ++ hallMismatch env dominio ++ hallFirma env dominio }

/-! ## `propagacion` -/

/-- The default public resolver set. -/
def defaultResolvers : List String := ["1.1.1.1", "8.8.8.8", "9.9.9.9"]

/-- `if not resolutores: resolutores = [...]`: an omitted argument (`None`)
and an explicitly passed empty list are both falsy and get the defaults. -/
def effectiveResolvers : Option (List String) → List String
  | none => defaultResolvers
  | some l => if l.isEmpty then defaultResolvers else l

/-- The per-resolver answer dict for one resolver IP. -/
def respuestaDe (env : DnsEnv) (d ip : String) : Respuesta :=
  { A := to_str_list (resolve_rr (env.recQueryAt ip d "A")).1
    AAAA := to_str_list (resolve_rr (env.recQueryAt ip d "AAAA")).1
    NS := (recordsOf (resolve_rr (env.recQueryAt ip d "NS")).1).map (fun n => pyRstrip '.' n.target)
    TXT_sample :=
      ((recordsOf (resolve_rr (env.recQueryAt ip d "TXT")).1).map
        (fun t => pyStripChar '"' t.text)).take 3 }

/-- The `respuestas` dict: keys in first-occurrence order of the resolver
list, each mapped to its (deterministic) answers. -/
def respMap (env : DnsEnv) (d : String) (rs : List String) : List (String × Respuesta) :=
  (pyDedup rs).map (fun ip => (ip, respuestaDe env d ip))

/-- One divergence map: the union of all resolvers' answers for the selected
type, minus each resolver's own answers, `sorted(list(...))`, keyed like
`respuestas`. -/
def diffFor (resp : List (String × Respuesta)) (sel : Respuesta → List String) :
    List (String × List String) :=
  let universo := pyDedup (concatMap (fun p => sel p.2) resp)
  resp.map (fun p => (p.1, pySortedStr (universo.filter (fun s => !(decide (s ∈ sel p.2))))))

/-- `propagacion(dominio, resolutores)`: query each resolver independently for
A/AAAA/NS/TXT and compute per-type divergence against the union. -/
def propagacion (env : DnsEnv) (dominio : String) (resolutores : Option (List String)) :
    ResultadoPropagacion :=
  let rs := effectiveResolvers resolutores
  let resp := respMap env dominio rs
  { dominio := dominio
    resolutores := rs
    respuestas := resp
    diferencias :=
      { A := diffFor resp (·.A), AAAA := diffFor resp (·.AAAA), NS := diffFor resp (·.NS) } }

/-! ## Specification-side definitions and concrete environments -/

/-- Correctness of one divergence entry: the resolver has an answer entry and
a divergence entry, and the divergence entry holds exactly the strings that
appear in some resolver's answers for the selected type but not in this
resolver's own answers. -/
def divergenceCorrect (resp : List (String × Respuesta)) (dif : List (String × List String))
    (ip : String) (sel : Respuesta → List String) : Prop :=
  ∃ own l, List.lookup ip resp = some own ∧ List.lookup ip dif = some l ∧
    ∀ s, s ∈ l ↔ ((∃ q ∈ resp, s ∈ sel q.2) ∧ s ∉ sel own)

/-- Removes one layer of surrounding quotes: one leading `"` if present, one
trailing `"` if present.  This follows the SPEC's words ("after stripping a
single layer of surrounding quotes") and deliberately differs from the
source's `strip('"')` (`pyStripChar`), which removes ALL leading and trailing
quote characters. -/
def stripOneQuoteLayer (s : String) : String :=
  let l1 := match s.data with
    | '"' :: rest => rest
    | l => l
  let l2 := match l1.reverse with
    | '"' :: rest => rest.reverse
    | _ => l1
  ⟨l2⟩

/-- The SPF value as the spec describes it: the first TXT value whose
lower-cased text starts with `v=spf1` after stripping a single layer of
surrounding quotes. -/
def spfSingleLayerSpec (texts : List String) : Option String :=
  (texts.map stripOneQuoteLayer).find? (fun t => pyStartsWith "v=spf1" (pyLower t))

/-- A neutral environment: every recursive lookup returns an answer with no
rrset, raw queries return empty answers, name parsing succeeds, DNSSEC
primitives succeed. -/
def baseEnv : DnsEnv :=
  { recQuery := fun _ _ => .ans none
    recQueryAt := fun _ _ _ => .ans none
    authResp := fun _ _ _ => .ok []
    fromText := fun _ => .ok ()
    randLabel := "zx81k9q2mw"
    udpSoa := fun _ => .ok []
    validateSig := fun _ _ _ => .ok ()
    makeDS := fun _ _ _ => .ok "" }

/-- An address record (A-type) whose text and address are the given IP. -/
def aRec (ip : String) : DnsRecord := { text := ip, address := some ip }

/-- Name parsing for the C1 counterexample: `dns.name.from_text` raises
`EmptyLabel` on the malformed name `a..b` (two consecutive dots give an empty
label), exactly as dnspython does. -/
def fromTextC1 (s : String) : Except String Unit :=
  if s == "a..b" then .error "EmptyLabel" else .ok ()

/-- Environment for the C1 counterexample. -/
def envC1bad : DnsEnv := { baseEnv with fromText := fromTextC1 }

/-- Per-resolver answers for the C2 witness: resolver `1.1.1.1` sees one A
record, every other resolver sees two. -/
def queryAtC2 (ip _d typ : String) : ResolveOutcome :=
  if typ == "A" then
    if ip == "1.1.1.1" then .ans (some { records := [aRec "1.1.1.1"], ttl := 60 })
    else .ans (some { records := [aRec "1.1.1.1", aRec "2.2.2.2"], ttl := 60 })
  else .ans none

/-- Environment for the C2 witness. -/
def envC2 : DnsEnv := { baseEnv with recQueryAt := queryAtC2 }

/-- Recursive answers with apex TTLs 10 (A) and `t` (AAAA). -/
def queryTtl (t : Nat) (_n typ : String) : ResolveOutcome :=
  if typ == "A" then .ans (some { records := [aRec "1.2.3.4"], ttl := 10 })
  else if typ == "AAAA" then .ans (some { records := [aRec "2001:db8::1"], ttl := t })
  else .ans none

/-- Environment with apex TTLs 10 and 40: the boundary case where
`tmax = 4 * max(1, tmin)` exactly. -/
def envTtl40 : DnsEnv := { baseEnv with recQuery := queryTtl 40 }

/-- Environment with apex TTLs 10 and 39: just below the boundary. -/
def envTtl39 : DnsEnv := { baseEnv with recQuery := queryTtl 39 }

/-- Recursive answers for the C4 witness: one DS record published by the
parent and two DNSKEYs at the apex. -/
def queryC4 (_n typ : String) : ResolveOutcome :=
  if typ == "DS" then
    .ans (some { records := [{ text := "30909 8 2 ABCD", digestType := 2 }], ttl := 3600 })
  else if typ == "DNSKEY" then
    .ans (some { records := [{ text := "257 3 8 KEY1", algorithm := 8, keyTag := 30909 }, { text := "256 3 8 KEY2", algorithm := 8, keyTag := 12345 }], ttl := 3600 })
  else .ans none

/-- DS recomputation for the C4 witness: always an rdata different from the
published one (so zero pairs match). -/
def makeDsC4 (_z : String) (k : DnsRecord) (dt : Nat) : Except String String :=
  .ok ("30909 8 " ++ toString dt ++ " FFFF-" ++ k.text)

/-- Environment for the C4 witness. -/
def envC4 : DnsEnv := { baseEnv with recQuery := queryC4, makeDS := makeDsC4 }

/-- Recursive answers for the C4 counterexample: the parent publishes one DS
record whose declared digest type is 3 (GOST), and the apex publishes one
DNSKEY. -/
def queryC4bad (_n typ : String) : ResolveOutcome :=
  if typ == "DS" then
    .ans (some { records := [{ text := "30909 8 3 ABCD", digestType := 3 }], ttl := 3600 })
  else if typ == "DNSKEY" then
    .ans (some { records := [{ text := "257 3 8 KEY1", algorithm := 8, keyTag := 30909 }], ttl := 3600 })
  else .ans none

/-- DS recomputation for the C4 counterexample: digest type 3 is not
supported by `dns.dnssec.make_ds` (it accepts SHA1/SHA256/SHA384, i.e. digest
types 1, 2 and 4), so it raises `UnsupportedAlgorithm`; other digest types
recompute to an rdata different from the published one. -/
def makeDsC4bad (_z : String) (k : DnsRecord) (dt : Nat) : Except String String :=
  if dt == 3 then .error "UnsupportedAlgorithm"
  else .ok ("30909 8 " ++ toString dt ++ " FFFF-" ++ k.text)

/-- Environment for the C4 counterexample. -/
def envC4bad : DnsEnv := { baseEnv with recQuery := queryC4bad, makeDS := makeDsC4bad }

/-- SOA/DNSSEC probe for the C5 exception witness: the raw query raises. -/
def udpSoaC5 (_n : String) : Except String (List WireRRset) := .error "Timeout"

/-- Environment for the C5 exception witness. -/
def envC5a : DnsEnv := { baseEnv with udpSoa := udpSoaC5 }

/-- Recursive answers for the C6 witness: the apex publishes the spec's two
MX records in reverse-preference order. -/
def queryC6 (_n typ : String) : ResolveOutcome :=
  if typ == "MX" then
    .ans (some { records := [{ text := "20 mail2.example.com" }, { text := "10 mail1.example.com" }], ttl := 300 })
  else .ans none

/-- Environment for the C6 witness. -/
def envC6 : DnsEnv := { baseEnv with recQuery := queryC6 }

/-- Recursive answers for the C7 counterexample: the apex TXT set holds the
single value `"v=spf1 a" ""` (a quoted SPF string followed by a quoted empty
string, as dnspython renders a two-string TXT rdata).  `strip('"')` removes
BOTH trailing quotes; a single surrounding layer removes only one. -/
def queryC7 (n typ : String) : ResolveOutcome :=
  if typ == "TXT" && n == "ejemplo.com" then
    .ans (some { records := [{ text := "\"v=spf1 a\" \"\"" }], ttl := 300 })
  else .ans none

/-- Environment for the C7 counterexample. -/
def envC7 : DnsEnv := { baseEnv with recQuery := queryC7 }

/-- Recursive answers for the C9 witness: the random-label probe name (and
only it) resolves to one A record. -/
def queryC9 (n typ : String) : ResolveOutcome :=
  if typ == "A" && n == "zx81k9q2mw.test.com" then
    .ans (some { records := [aRec "10.9.8.7"], ttl := 30 })
  else .ans none

/-- Environment for the C9 witness. -/
def envC9 : DnsEnv := { baseEnv with recQuery := queryC9 }

/-! ## Shared lemmas -/

theorem mem_pyDedupAux [DecidableEq α] (x : α) (l seen : List α) :
    x ∈ pyDedupAux l seen ↔ x ∈ l ∧ x ∉ seen := by
  induction l generalizing seen with
  | nil => simp [pyDedupAux]
  | cons y ys ih =>
    by_cases hy : y ∈ seen
    · simp only [pyDedupAux, if_pos hy, ih]
      constructor
      · rintro ⟨h1, h2⟩
        exact ⟨List.mem_cons_of_mem _ h1, h2⟩
      · rintro ⟨h1, h2⟩
        rcases List.mem_cons.1 h1 with rfl | h1
        · exact absurd hy h2
        · exact ⟨h1, h2⟩
    · simp only [pyDedupAux, if_neg hy, List.mem_cons, ih, List.mem_cons, not_or]
      constructor
      · rintro (rfl | ⟨h1, h2, h3⟩)
        · exact ⟨Or.inl rfl, hy⟩
        · exact ⟨Or.inr h1, h3⟩
      · rintro ⟨rfl | h1, h2⟩
        · exact Or.inl rfl
        · by_cases hxy : x = y
          · exact Or.inl hxy
          · exact Or.inr ⟨h1, hxy, h2⟩

theorem mem_pyDedup [DecidableEq α] (x : α) (l : List α) :
    x ∈ pyDedup l ↔ x ∈ l := by
  simp [pyDedup, mem_pyDedupAux]

theorem pyDedup_ne_nil [DecidableEq α] (l : List α) (h : l ≠ []) : pyDedup l ≠ [] := by
  match l with
  | [] => exact absurd rfl h
  | x :: xs => simp [pyDedup, pyDedupAux]

theorem mem_concatMap (f : α → List β) (l : List α) (b : β) :
    b ∈ concatMap f l ↔ ∃ a ∈ l, b ∈ f a := by
  induction l with
  | nil => simp [concatMap]
  | cons x xs ih => simp [concatMap, ih, List.mem_append]

theorem concatMap_eq_nil (f : α → List β) (l : List α) (h : ∀ a ∈ l, f a = []) :
    concatMap f l = [] := by
  induction l with
  | nil => rfl
  | cons x xs ih =>
    simp only [concatMap, h x (List.mem_cons_self x xs), List.nil_append]
    exact ih fun a ha => h a (List.mem_cons_of_mem x ha)

theorem mem_pySortedStr (s : String) (l : List String) :
    s ∈ pySortedStr l ↔ s ∈ l :=
  (List.perm_insertionSort _ l).mem_iff

theorem lookup_map_self {β : Type} (g : String → β) (ip : String) (l : List String)
    (h : ip ∈ l) : List.lookup ip (l.map (fun x => (x, g x))) = some (g ip) := by
  induction l with
  | nil => simp at h
  | cons x xs ih =>
    by_cases hx : ip = x
    · subst hx
      simp [List.lookup]
    · rcases List.mem_cons.1 h with rfl | hmem
      · exact absurd rfl hx
      · have hbeq : (ip == x) = false := beq_eq_false_iff_ne.2 hx
        simp [List.lookup, hbeq, ih hmem]

theorem mem_ite_singleton {c : Prop} [Decidable c] (x h : α) :
    h ∈ (if c then [x] else ([] : List α)) ↔ c ∧ h = x := by
  split
  · simp [*]
  · simp [*]

theorem pairwise_of_nodup_map {f : α → Int} {l : List α} (h : (l.map f).Nodup) :
    l.Pairwise (fun a b => f a ≠ f b) := by
  induction l with
  | nil => simp
  | cons x xs ih =>
    simp only [List.map_cons, List.nodup_cons] at h
    exact List.Pairwise.cons (fun b hb hfb => h.1 (hfb ▸ List.mem_map_of_mem f hb)) (ih h.2)

/-- Every finding the wildcard heuristic can emit has kind `wildcard` and
severity `warning`. -/
theorem hallWildcard_shape (env : DnsEnv) (d : String) (h : Hallazgo)
    (hm : h ∈ hallWildcard env d) : h.tipo = "wildcard" ∧ h.severidad = "warning" := by
  unfold hallWildcard at hm
  rcases (mem_ite_singleton _ _).1 hm with ⟨-, rfl⟩
  exact ⟨rfl, rfl⟩

/-- Every finding the TTL heuristic can emit has kind `ttls_desbalanceados`
and severity `info`. -/
theorem hallTtl_shape (env : DnsEnv) (d : String) (h : Hallazgo)
    (hm : h ∈ hallTtl env d) : h.tipo = "ttls_desbalanceados" ∧ h.severidad = "info" := by
  unfold hallTtl at hm
  rcases hmin : (ttlVals env d).min? with _ | tmin <;>
    rcases hmax : (ttlVals env d).max? with _ | tmax <;>
      simp only [hmin, hmax] at hm
  · simp at hm
  · simp at hm
  · simp at hm
  · rcases (mem_ite_singleton _ _).1 hm with ⟨-, rfl⟩
    exact ⟨rfl, rfl⟩

/-- Every finding the dangling-CNAME heuristic can emit has kind
`cname_colgante` and severity `error`. -/
theorem hallCname_shape (env : DnsEnv) (d : String) (h : Hallazgo)
    (hm : h ∈ hallCname env d) : h.tipo = "cname_colgante" ∧ h.severidad = "error" := by
  unfold hallCname at hm
  rcases hrec : recordsOf (recLookup env d "CNAME") with _ | ⟨c, rest⟩ <;>
    simp only [hrec] at hm
  · simp at hm
  · rcases (mem_ite_singleton _ _).1 hm with ⟨-, rfl⟩
    exact ⟨rfl, rfl⟩

/-- Membership in the health report's findings decomposes by heuristic. -/
theorem mem_salud_hallazgos (env : DnsEnv) (d : String) (h : Hallazgo) :
    h ∈ (salud_dns env d).hallazgos ↔
      h ∈ hallWildcard env d ∨ h ∈ hallTtl env d ∨ h ∈ hallCname env d := by
  simp [salud_dns, List.mem_append]

theorem respMap_keys (env : DnsEnv) (d : String) (rs : List String) :
    (respMap env d rs).map Prod.fst = pyDedup rs := by
  unfold respMap
  rw [List.map_map]
  exact List.map_id' (pyDedup rs)

theorem diffFor_keys (resp : List (String × Respuesta)) (sel : Respuesta → List String) :
    (diffFor resp sel).map Prod.fst = resp.map Prod.fst := by
  simp only [diffFor]
  rw [List.map_map]
  rfl

theorem effectiveResolvers_ne_nil (opt : Option (List String)) :
    effectiveResolvers opt ≠ [] := by
  match opt with
  | none => simp [effectiveResolvers, defaultResolvers]
  | some [] => simp [effectiveResolvers, defaultResolvers]
  | some (x :: xs) => simp [effectiveResolvers]

theorem respMap_ne_nil (env : DnsEnv) (d : String) (rs : List String) (h : rs ≠ []) :
    respMap env d rs ≠ [] := by
  unfold respMap
  intro hc
  exact pyDedup_ne_nil rs h (List.map_eq_nil_iff.1 hc)

theorem diffFor_ne_nil (resp : List (String × Respuesta)) (sel : Respuesta → List String)
    (h : resp ≠ []) : diffFor resp sel ≠ [] := by
  simp only [diffFor]
  intro hc
  exact h (List.map_eq_nil_iff.1 hc)

/-- The heart of the propagation comparison: for every resolver in the list,
its divergence entry is exactly `union − own answers`. -/
theorem diffFor_correct (env : DnsEnv) (d : String) (rs : List String) (ip : String)
    (hip : ip ∈ rs) (sel : Respuesta → List String) :
    divergenceCorrect (respMap env d rs) (diffFor (respMap env d rs) sel) ip sel := by
  have hip' : ip ∈ pyDedup rs := (mem_pyDedup ip rs).2 hip
  have h1 : List.lookup ip (respMap env d rs) = some (respuestaDe env d ip) :=
    lookup_map_self _ ip _ hip'
  have h2 : diffFor (respMap env d rs) sel
      = (pyDedup rs).map (fun x => (x,
          pySortedStr ((pyDedup (concatMap (fun p => sel p.2) (respMap env d rs))).filter
            (fun s => !(decide (s ∈ sel (respuestaDe env d x))))))) := by
    simp only [diffFor, respMap]
    rw [List.map_map]
    rfl
  unfold divergenceCorrect
  refine ⟨respuestaDe env d ip,
    pySortedStr ((pyDedup (concatMap (fun p => sel p.2) (respMap env d rs))).filter
      (fun s => !(decide (s ∈ sel (respuestaDe env d ip))))), h1, ?_, ?_⟩
  · rw [h2]
    exact lookup_map_self _ ip _ hip'
  · intro s
    rw [mem_pySortedStr, List.mem_filter, mem_pyDedup, mem_concatMap]
    simp

/-! ## Claim theorems -/

/-- C2: for every resolver IP in the report and each record type among A,
AAAA and NS, the divergence entry computed by `propagacion` equals the union
of all resolvers' text answers for that type minus that resolver's own
answers for that type (so a resolver whose answers already cover the union
gets an empty divergence set). -/
theorem C2_divergence_is_union_minus_own (env : DnsEnv) (d : String)
    (opt : Option (List String)) (ip : String)
    (hip : ip ∈ (propagacion env d opt).resolutores) :
    divergenceCorrect (propagacion env d opt).respuestas
      (propagacion env d opt).diferencias.A ip (fun r => r.A) ∧
    divergenceCorrect (propagacion env d opt).respuestas
      (propagacion env d opt).diferencias.AAAA ip (fun r => r.AAAA) ∧
    divergenceCorrect (propagacion env d opt).respuestas
      (propagacion env d opt).diferencias.NS ip (fun r => r.NS) := by
  have hip' : ip ∈ effectiveResolvers opt := hip
  exact ⟨diffFor_correct env d _ ip hip' _, diffFor_correct env d _ ip hip' _,
    diffFor_correct env d _ ip hip' _⟩

/-- C2 witness: two resolvers, `1.1.1.1` seeing `{1.1.1.1}` and `8.8.8.8`
seeing `{1.1.1.1, 2.2.2.2}` for type A. -/
theorem C2_divergence_is_union_minus_own_witness :
    divergenceCorrect (propagacion envC2 "example.com" (some ["1.1.1.1", "8.8.8.8"])).respuestas
      (propagacion envC2 "example.com" (some ["1.1.1.1", "8.8.8.8"])).diferencias.A
      "1.1.1.1" (fun r => r.A) :=
  (C2_divergence_is_union_minus_own envC2 "example.com" (some ["1.1.1.1", "8.8.8.8"])
    "1.1.1.1" (by decide)).1

/-- C10: for every call to `propagacion` in which the supplied resolver list
is empty (an explicitly passed empty list, not only an omitted argument), the
default set `{1.1.1.1, 8.8.8.8, 9.9.9.9}` is substituted, so the returned
report's `resolvers` field and its per-type divergence maps are never
empty. -/
theorem C10_empty_resolver_list_gets_defaults (env : DnsEnv) (d : String) :
    (propagacion env d (some [])).resolutores = defaultResolvers ∧
    (propagacion env d none).resolutores = defaultResolvers ∧
    (propagacion env d (some [])).diferencias.A.map Prod.fst = defaultResolvers ∧
    (propagacion env d (some [])).diferencias.AAAA.map Prod.fst = defaultResolvers ∧
    (propagacion env d (some [])).diferencias.NS.map Prod.fst = defaultResolvers ∧
    ∀ opt, (propagacion env d opt).resolutores ≠ [] ∧
      (propagacion env d opt).diferencias.A ≠ [] ∧
      (propagacion env d opt).diferencias.AAAA ≠ [] ∧
      (propagacion env d opt).diferencias.NS ≠ [] := by
  have hkeys : ∀ (sel : Respuesta → List String),
      (diffFor (respMap env d defaultResolvers) sel).map Prod.fst = defaultResolvers := by
    intro sel
    rw [diffFor_keys, respMap_keys]
    decide
  have hne : ∀ opt (sel : Respuesta → List String),
      diffFor (respMap env d (effectiveResolvers opt)) sel ≠ [] := fun opt sel =>
    diffFor_ne_nil _ _ (respMap_ne_nil env d _ (effectiveResolvers_ne_nil opt))
  exact ⟨rfl, rfl, hkeys _, hkeys _, hkeys _,
    fun opt => ⟨effectiveResolvers_ne_nil opt, hne opt _, hne opt _, hne opt _⟩⟩

theorem autoritativoTipo_empty (env : DnsEnv) (d typ : String)
    (h : get_authoritative_ns_ips env d = []) : autoritativoTipo env d typ = [] := by
  unfold autoritativoTipo
  rw [h]
  rfl

/-- C8: for every domain for which no authoritative server IPs are
discoverable (NS resolution fails or no NS target resolves to an address),
authoritative discovery returns an empty list, the authoritative sections of
the health report returned by `salud_dns` are empty maps, and the call does
not raise (it returns a structured report for the queried domain). -/
theorem C8_no_auth_servers_empty_sections (env : DnsEnv) (d : String) :
    (truthy (recLookup env d "NS") = false → get_authoritative_ns_ips env d = []) ∧
    ((∀ r ∈ recordsOf (recLookup env d "NS"), ∀ typ ∈ ["A", "AAAA"],
        truthy (recLookup env (pyRstrip '.' r.target) typ) = false) →
      get_authoritative_ns_ips env d = []) ∧
    (get_authoritative_ns_ips env d = [] →
      (salud_dns env d).autoritativo = ⟨[], [], [], []⟩ ∧ (salud_dns env d).dominio = d) := by
  refine ⟨?_, ?_, ?_⟩
  · intro h
    simp [get_authoritative_ns_ips, h]
  · intro h
    unfold get_authoritative_ns_ips
    by_cases ht : truthy (recLookup env d "NS")
    · rw [if_pos ht]
      rw [concatMap_eq_nil]
      · rfl
      · intro r hr
        rw [concatMap_eq_nil]
        intro typ htyp
        simp [h r hr typ htyp]
    · rw [if_neg ht]
  · intro h
    constructor
    · show SeccionTipos.mk _ _ _ _ = _
      rw [autoritativoTipo_empty env d "A" h, autoritativoTipo_empty env d "AAAA" h,
        autoritativoTipo_empty env d "NS" h, autoritativoTipo_empty env d "SOA" h]
    · rfl

/-- C8 witness: in the neutral environment the NS lookup yields no rrset, so
discovery is empty and both authoritative sections of the report are empty. -/
theorem C8_no_auth_servers_empty_sections_witness :
    get_authoritative_ns_ips baseEnv "example.org" = [] ∧
    (salud_dns baseEnv "example.org").autoritativo = ⟨[], [], [], []⟩ :=
  ⟨(C8_no_auth_servers_empty_sections baseEnv "example.org").1 rfl,
    ((C8_no_auth_servers_empty_sections baseEnv "example.org").2.2
      ((C8_no_auth_servers_empty_sections baseEnv "example.org").1 rfl)).1⟩

/-- C3: in `salud_dns`, for every non-empty multiset of TTLs collected from
whichever of the A/AAAA/NS/SOA recursive answers resolved, the
`ttls_desbalanceados` finding (severity `info`) is emitted iff
`max(TTLs) >= 4 * max(1, min(TTLs))`; equality at the boundary triggers the
finding (TTLs `[10, 40]` fire, `[10, 39]` do not). -/
theorem C3_ttl_skew_iff :
    (∀ (env : DnsEnv) (d : String),
      (∃ h ∈ (salud_dns env d).hallazgos, h.tipo = "ttls_desbalanceados" ∧ h.severidad = "info")
        ↔ ∃ tmin tmax, (ttlVals env d).min? = some tmin ∧ (ttlVals env d).max? = some tmax ∧
            4 * max 1 tmin ≤ tmax) ∧
    ttlVals envTtl40 "x.com" = [10, 40] ∧
    ttlVals envTtl39 "x.com" = [10, 39] ∧
    (∃ h ∈ (salud_dns envTtl40 "x.com").hallazgos, h.tipo = "ttls_desbalanceados") ∧
    (∀ h ∈ (salud_dns envTtl39 "x.com").hallazgos, h.tipo ≠ "ttls_desbalanceados") := by
  refine ⟨?_, by decide, by decide, by decide, by decide⟩
  intro env d
  constructor
  · rintro ⟨h, hm, htipo, hsev⟩
    rcases (mem_salud_hallazgos env d h).1 hm with hw | ht | hc
    · exact absurd (hallWildcard_shape env d h hw).1 (by simp [htipo])
    · rcases hmin : (ttlVals env d).min? with _ | tmin <;>
        rcases hmax : (ttlVals env d).max? with _ | tmax <;>
          simp only [hallTtl, hmin, hmax] at ht
      · simp at ht
      · simp at ht
      · simp at ht
      · rcases (mem_ite_singleton _ _).1 ht with ⟨hcond, rfl⟩
        exact ⟨tmin, tmax, rfl, rfl, hcond⟩
    · exact absurd (hallCname_shape env d h hc).1 (by simp [htipo])
  · rintro ⟨tmin, tmax, hmin, hmax, hcond⟩
    refine ⟨⟨"ttls_desbalanceados", "info",
      "TTLs variados en apex (min=" ++ toString tmin ++ ", max=" ++ toString tmax ++ ")"⟩,
      (mem_salud_hallazgos env d _).2 (Or.inr (Or.inl ?_)), rfl, rfl⟩
    simp [hallTtl, hmin, hmax, hcond]

/-- C9: in `salud_dns`, the wildcard finding is emitted iff the freshly
generated random 10-character alphanumeric subdomain of the input domain
(here: the environment's `randLabel` joined to the domain) resolves to at
least one A record; when it does, the unique wildcard finding carries the
resolved address texts in its message. -/
theorem C9_wildcard_iff (env : DnsEnv) (d : String) :
    ((∃ h ∈ (salud_dns env d).hallazgos, h.tipo = "wildcard")
      ↔ truthy (wildcardProbe env d) = true) ∧
    (∀ rs, wildcardProbe env d = some rs → rs.records ≠ [] →
      (salud_dns env d).hallazgos.filter (fun h => h.tipo == "wildcard")
        = [⟨"wildcard", "warning",
            wildcardMsg (wildcardSub env d) (rs.records.map (fun r => r.text))⟩]) := by
  constructor
  · constructor
    · rintro ⟨h, hm, htipo⟩
      rcases (mem_salud_hallazgos env d h).1 hm with hw | ht | hc
      · unfold hallWildcard at hw
        exact ((mem_ite_singleton _ _).1 hw).1
      · exact absurd (hallTtl_shape env d h ht).1 (by simp [htipo])
      · exact absurd (hallCname_shape env d h hc).1 (by simp [htipo])
    · intro htr
      refine ⟨⟨"wildcard", "warning",
        wildcardMsg (wildcardSub env d) (to_str_list (wildcardProbe env d))⟩,
        (mem_salud_hallazgos env d _).2 (Or.inl ?_), rfl⟩
      simp [hallWildcard, htr]
  · intro rs hrs hne
    have htr : truthy (wildcardProbe env d) = true := by
      rw [hrs]
      simpa [truthy] using hne
    have h1 : (hallWildcard env d).filter (fun h => h.tipo == "wildcard")
        = [⟨"wildcard", "warning",
            wildcardMsg (wildcardSub env d) (rs.records.map (fun r => r.text))⟩] := by
      have htr2 : truthy (some rs) = true := by simpa [truthy] using hne
      simp [hallWildcard, hrs, htr2, to_str_list, recordsOf, List.filter]
    have h2 : (hallTtl env d).filter (fun h => h.tipo == "wildcard") = [] :=
      List.filter_eq_nil_iff.2 fun x hx => by
        simp [(hallTtl_shape env d x hx).1]
    have h3 : (hallCname env d).filter (fun h => h.tipo == "wildcard") = [] :=
      List.filter_eq_nil_iff.2 fun x hx => by
        simp [(hallCname_shape env d x hx).1]
    show ((hallWildcard env d ++ hallTtl env d ++ hallCname env d).filter _) = _
    rw [List.filter_append, List.filter_append, h1, h2, h3, List.append_nil, List.append_nil]

/-- C9 witness: in `envC9` the probe `zx81k9q2mw.test.com` resolves to one A
record, so the report contains exactly one wildcard finding naming the
address. -/
theorem C9_wildcard_iff_witness :
    (salud_dns envC9 "test.com").hallazgos.filter (fun h => h.tipo == "wildcard")
      = [⟨"wildcard", "warning",
          wildcardMsg "zx81k9q2mw.test.com" ["10.9.8.7"]⟩] :=
  (C9_wildcard_iff envC9 "test.com").2 { records := [aRec "10.9.8.7"], ttl := 30 }
    (by decide) (by decide)

/-- C1 counterexample: the claim that all four entry points never raise past
their boundary for every input domain string is false.  `estado_dnssec`
evaluates `dns.name.from_text(dominio)` before any query and outside every
`try` block (servidor.py line 273), so on the syntactically malformed domain
`a..b` the library's `EmptyLabel` exception escapes the function boundary
(modelled by `Except.error`) and no report object is returned. -/
theorem C1_counterexample : estado_dnssec envC1bad "a..b" = .error "EmptyLabel" := rfl

/-- C1 (amended): `salud_dns`, `correo_politicas` and `propagacion` always
return a structured report for the queried domain (every fallible operation
they perform is handled locally), and `estado_dnssec` does so provided the
domain name parses (`dns.name.from_text` succeeds); under total query failure
the reports are still returned. -/
theorem C1_amended_no_raise (env : DnsEnv) (d : String) :
    (salud_dns env d).dominio = d ∧
    (correo_politicas env d).dominio = d ∧
    (∀ opt, (propagacion env d opt).dominio = d) ∧
    (env.fromText d = .ok () → ∃ r, estado_dnssec env d = .ok r ∧ r.dominio = d) := by
  refine ⟨rfl, rfl, fun _ => rfl, fun h => ?_⟩
  unfold estado_dnssec
  rw [h]
  exact ⟨_, rfl, rfl⟩

/-- C1 witness: in the neutral environment (name parsing succeeds, every
lookup fails) all four entry points return reports. -/
theorem C1_amended_no_raise_witness :
    (salud_dns baseEnv "example.com").dominio = "example.com" ∧
    ∃ r, estado_dnssec baseEnv "example.com" = .ok r ∧ r.dominio = "example.com" :=
  ⟨(C1_amended_no_raise baseEnv "example.com").1,
    (C1_amended_no_raise baseEnv "example.com").2.2.2 rfl⟩

/-- C6: in `correo_politicas`, when the MX lookup succeeds the returned `mx`
list is the textual MX records sorted ascending by their numeric preference
(first whitespace-separated token parsed as an integer; distinct preferences
give a strictly ascending chain); if any entry's preference token is
non-numeric, the list falls back to the unsorted textual order; if no MX
exists, `mx` is empty and a warning finding `sin_mx` is emitted. -/
theorem C6_mx_sorted (env : DnsEnv) (d : String) :
    (truthy (recLookup env d "MX") = true →
      ((∀ s ∈ to_str_list (recLookup env d "MX"), (mxKey? s).isSome) →
        (correo_politicas env d).mx.Perm (to_str_list (recLookup env d "MX")) ∧
        (correo_politicas env d).mx.Pairwise mxLe ∧
        (((to_str_list (recLookup env d "MX")).map mxKeyD).Nodup →
          (correo_politicas env d).mx.Pairwise (fun a b => mxKeyD a < mxKeyD b))) ∧
      ((∃ s ∈ to_str_list (recLookup env d "MX"), mxKey? s = none) →
        (correo_politicas env d).mx = to_str_list (recLookup env d "MX"))) ∧
    (truthy (recLookup env d "MX") = false →
      (correo_politicas env d).mx = [] ∧
      ∃ h ∈ (correo_politicas env d).hallazgos, h.tipo = "sin_mx" ∧ h.severidad = "warning") := by
  constructor
  · intro htr
    have hmx : (correo_politicas env d).mx = mxSorted? (to_str_list (recLookup env d "MX")) := by
      simp [correo_politicas, mxListDe, htr]
    constructor
    · intro hall
      have hallb : (to_str_list (recLookup env d "MX")).all (fun s => (mxKey? s).isSome) = true :=
        List.all_eq_true.2 hall
      have hsort : (correo_politicas env d).mx
          = (to_str_list (recLookup env d "MX")).insertionSort mxLe := by
        rw [hmx, mxSorted?, if_pos hallb]
      refine ⟨?_, ?_, ?_⟩
      · rw [hsort]
        exact List.perm_insertionSort mxLe _
      · rw [hsort]
        exact List.sorted_insertionSort mxLe _
      · intro hnd
        rw [hsort]
        have hperm := (List.perm_insertionSort mxLe (to_str_list (recLookup env d "MX"))).map mxKeyD
        have hnd2 : (((to_str_list (recLookup env d "MX")).insertionSort mxLe).map mxKeyD).Nodup :=
          hperm.nodup_iff.2 hnd
        have hne := pairwise_of_nodup_map hnd2
        have hle : ((to_str_list (recLookup env d "MX")).insertionSort mxLe).Pairwise mxLe :=
          List.sorted_insertionSort mxLe _
        exact (hle.and hne).imp fun hab => lt_of_le_of_ne hab.1 hab.2
    · rintro ⟨s, hs, hnone⟩
      have hallf : ¬ ((to_str_list (recLookup env d "MX")).all (fun s => (mxKey? s).isSome) = true) := by
        rw [List.all_eq_true]
        intro hforall
        have := hforall s hs
        rw [hnone] at this
        simp at this
      rw [hmx, mxSorted?, if_neg hallf]
  · intro hfa
    constructor
    · simp [correo_politicas, mxListDe, hfa]
    · refine ⟨⟨"sin_mx", "warning", "El dominio no publica registros MX."⟩, ?_, rfl, rfl⟩
      simp [correo_politicas, hallSinMx, hfa]

/-- C6 witness: the spec's example `["20 mail2.example.com",
"10 mail1.example.com"]` sorts to ascending preference order. -/
theorem C6_mx_sorted_witness :
    (correo_politicas envC6 "example.com").mx.Perm
      ["20 mail2.example.com", "10 mail1.example.com"] ∧
    (correo_politicas envC6 "example.com").mx.Pairwise mxLe ∧
    (correo_politicas envC6 "example.com").mx
      = ["10 mail1.example.com", "20 mail2.example.com"] :=
  ⟨((C6_mx_sorted envC6 "example.com").1 (by decide)).1 (by decide) |>.1,
    ((C6_mx_sorted envC6 "example.com").1 (by decide)).1 (by decide) |>.2.1,
    by decide⟩

theorem hallSinMx_shape (env : DnsEnv) (d : String) (h : Hallazgo)
    (hm : h ∈ hallSinMx env d) : h.tipo = "sin_mx" := by
  unfold hallSinMx at hm
  split at hm
  · simp at hm
  · rcases List.mem_singleton.1 hm with rfl
    rfl

theorem hallSinSpf_shape (env : DnsEnv) (d : String) (h : Hallazgo)
    (hm : h ∈ hallSinSpf env d) : h.tipo = "sin_spf" ∧ h.severidad = "warning" := by
  unfold hallSinSpf at hm
  split at hm
  · rcases List.mem_singleton.1 hm with rfl
    exact ⟨rfl, rfl⟩
  · simp at hm

theorem hallSinDmarc_shape (env : DnsEnv) (d : String) (h : Hallazgo)
    (hm : h ∈ hallSinDmarc env d) : h.tipo = "sin_dmarc" := by
  unfold hallSinDmarc at hm
  split at hm
  · rcases List.mem_singleton.1 hm with rfl
    rfl
  · simp at hm

theorem hallSinDnskey_shape (env : DnsEnv) (d : String) (h : Hallazgo)
    (hm : h ∈ hallSinDnskey env d) : h.tipo = "sin_dnskey" := by
  unfold hallSinDnskey at hm
  split at hm
  · simp at hm
  · rcases List.mem_singleton.1 hm with rfl
    rfl

theorem hallMismatch_shape (env : DnsEnv) (d : String) (h : Hallazgo)
    (hm : h ∈ hallMismatch env d) : h.tipo = "ds_dnskey_mismatch" := by
  unfold hallMismatch at hm
  split at hm
  · rcases List.mem_singleton.1 hm with rfl
    rfl
  · simp at hm

theorem hallFirma_shape (env : DnsEnv) (d : String) (h : Hallazgo)
    (hm : h ∈ hallFirma env d) : h.tipo = "firma_soa_invalida" := by
  unfold hallFirma at hm
  split at hm
  · rcases List.mem_singleton.1 hm with rfl
    rfl
  · simp at hm

/-- The counting loop, on a cross-product slice on which every recomputation
succeeds, returns the number of matching pairs. -/
theorem foldlM_dsStep (env : DnsEnv) (d : String) (l : List (DnsRecord × DnsRecord))
    (acc : Nat) (hok : ∀ kd ∈ l, (env.makeDS d kd.1 kd.2.digestType).isOk = true) :
    l.foldlM (dsStep env d) acc = .ok (acc + l.countP (dsMatchP env d)) := by
  induction l generalizing acc with
  | nil => rfl
  | cons kd t ih =>
    rcases hmk : env.makeDS d kd.1 kd.2.digestType with e | c
    · have h1 := hok kd (List.mem_cons_self kd t)
      rw [hmk] at h1
      simp [Except.isOk, Except.toBool] at h1
    · rw [List.foldlM_cons]
      have hstep : dsStep env d acc kd = .ok (if c == kd.2.text then acc + 1 else acc) := by
        unfold dsStep
        rw [hmk]
        rfl
      rw [hstep]
      have hbind : (Except.ok (if c == kd.2.text then acc + 1 else acc) >>=
          fun a => t.foldlM (dsStep env d) a) =
            t.foldlM (dsStep env d) (if c == kd.2.text then acc + 1 else acc) := rfl
      rw [hbind, ih _ (fun x hx => hok x (List.mem_cons_of_mem kd hx))]
      have hp : dsMatchP env d kd = (c == kd.2.text) := by
        unfold dsMatchP
        rw [hmk]
      rw [List.countP_cons, hp]
      cases hc : (c == kd.2.text)
      · simp
      · simp
        omega

theorem countDsMatches_ok (env : DnsEnv) (d : String) (keys dss : List DnsRecord)
    (hok : ∀ kd ∈ dsPairs keys dss, (env.makeDS d kd.1 kd.2.digestType).isOk = true) :
    countDsMatches env d keys dss = .ok (matchingPairs env d keys dss) := by
  unfold countDsMatches matchingPairs
  simpa using foldlM_dsStep env d (dsPairs keys dss) 0 hok

/-- C4 counterexample: the claim "the ds_dnskey_mismatch finding is emitted
exactly once iff zero (DNSKEY, DS) pairs match, whenever both record sets are
present" is false.  With one published DS whose declared digest type is 3
(unsupported by `dns.dnssec.make_ds`) and one DNSKEY, both sets are present
and zero pairs match (no digest is derivable from any DNSKEY under that
algorithm), yet the `UnsupportedAlgorithm` exception raised at
servidor.py:305 jumps to the `except` at line 311: only a detail line
`Error comparando DS/DNSKEY: ...` is appended and the finding is NOT
emitted. -/
theorem C4_counterexample :
    truthy (recLookup envC4bad "ejemplo.net" "DS") = true ∧
    truthy (recLookup envC4bad "ejemplo.net" "DNSKEY") = true ∧
    matchingPairs envC4bad "ejemplo.net"
      (recordsOf (recLookup envC4bad "ejemplo.net" "DNSKEY"))
      (recordsOf (recLookup envC4bad "ejemplo.net" "DS")) = 0 ∧
    ∃ r, estado_dnssec envC4bad "ejemplo.net" = .ok r ∧
      r.hallazgos.filter (fun h => h.tipo == "ds_dnskey_mismatch") = [] ∧
      "Error comparando DS/DNSKEY: UnsupportedAlgorithm" ∈ r.detalles := by
  refine ⟨by decide, by decide, by decide, ⟨_, rfl, by decide, by decide⟩⟩

/-- C4 (amended): in `estado_dnssec`, whenever both a DS record set and a
DNSKEY record set are present, then: if every DS recomputation over the full
cross-product succeeds, the `ds_dnskey_mismatch` finding (severity `error`)
is emitted exactly once iff zero (DNSKEY, DS) pairs match, regardless of how
many DNSKEYs or DS records are present; if instead any recomputation raises
(e.g. an unsupported digest type), the whole comparison is aborted: a detail
line `Error comparando DS/DNSKEY: <e>` is logged and no finding is emitted,
even when zero pairs match. -/
theorem C4_ds_dnskey_mismatch_iff (env : DnsEnv) (d : String)
    (h0 : env.fromText d = .ok ())
    (hds : truthy (recLookup env d "DS") = true)
    (hkey : truthy (recLookup env d "DNSKEY") = true) :
    ((∀ kd ∈ dsPairs (recordsOf (recLookup env d "DNSKEY"))
        (recordsOf (recLookup env d "DS")),
      (env.makeDS d kd.1 kd.2.digestType).isOk = true) →
      ∃ r, estado_dnssec env d = .ok r ∧
        r.hallazgos.filter (fun h => h.tipo == "ds_dnskey_mismatch")
          = (if matchingPairs env d (recordsOf (recLookup env d "DNSKEY"))
                (recordsOf (recLookup env d "DS")) = 0
             then [⟨"ds_dnskey_mismatch", "error", mismatchMsg⟩] else [])) ∧
    (∀ e, countDsMatches env d (recordsOf (recLookup env d "DNSKEY"))
        (recordsOf (recLookup env d "DS")) = .error e →
      ∃ r, estado_dnssec env d = .ok r ∧
        r.hallazgos.filter (fun h => h.tipo == "ds_dnskey_mismatch") = [] ∧
        ("Error comparando DS/DNSKEY: " ++ e) ∈ r.detalles) := by
  have hest : estado_dnssec env d = .ok
      { dominio := d
        tiene_ds_en_padre := truthy (recLookup env d "DS")
        dnskey_algoritmos := algosDe env d
        soa_firmada_valida := soaOkDe env d
        detalles := detDs env d ++ detDnskey env d ++ detCmp env d ++ detSoa env d
        hallazgos := hallSinDnskey env d ++ hallMismatch env d ++ hallFirma env d } := by
    unfold estado_dnssec
    rw [h0]
    rfl
  have e1 : hallSinDnskey env d = [] := by
    simp [hallSinDnskey, hkey]
  have e4 : (hallFirma env d).filter (fun h => h.tipo == "ds_dnskey_mismatch") = [] :=
    List.filter_eq_nil_iff.2 fun x hx => by
      simp [hallFirma_shape env d x hx]
  constructor
  · intro hok
    refine ⟨_, hest, ?_⟩
    have e2 : cmpDs env d = some (.ok (matchingPairs env d
        (recordsOf (recLookup env d "DNSKEY")) (recordsOf (recLookup env d "DS")))) := by
      simp only [cmpDs, hds, hkey, Bool.and_self, if_pos]
      rw [countDsMatches_ok env d _ _ hok]
    have e3 : hallMismatch env d
        = (if matchingPairs env d (recordsOf (recLookup env d "DNSKEY"))
              (recordsOf (recLookup env d "DS")) = 0
           then [⟨"ds_dnskey_mismatch", "error", mismatchMsg⟩] else []) := by
      unfold hallMismatch
      rw [e2]
      cases hn : matchingPairs env d (recordsOf (recLookup env d "DNSKEY"))
          (recordsOf (recLookup env d "DS")) with
      | zero => simp
      | succ n => simp
    show ((hallSinDnskey env d ++ hallMismatch env d ++ hallFirma env d).filter _) = _
    rw [List.filter_append, List.filter_append, e1, e3, e4, List.append_nil]
    cases hn : matchingPairs env d (recordsOf (recLookup env d "DNSKEY"))
        (recordsOf (recLookup env d "DS")) with
    | zero => simp [List.filter]
    | succ n => simp [List.filter]
  · intro e herr
    have e2 : cmpDs env d = some (.error e) := by
      simp only [cmpDs, hds, hkey, Bool.and_self, if_pos]
      rw [herr]
    have e3 : hallMismatch env d = [] := by
      unfold hallMismatch
      rw [e2]
    refine ⟨_, hest, ?_, ?_⟩
    · show ((hallSinDnskey env d ++ hallMismatch env d ++ hallFirma env d).filter _) = _
      rw [List.filter_append, List.filter_append, e1, e3, e4]
      rfl
    · have hc : ("Error comparando DS/DNSKEY: " ++ e) ∈ detCmp env d := by
        simp [detCmp, e2]
      show _ ∈ detDs env d ++ detDnskey env d ++ detCmp env d ++ detSoa env d
      simp only [List.mem_append]
      exact Or.inl (Or.inr hc)

/-- C4 witness: on the success side one DS record and two DNSKEYs with all
recomputations succeeding but none matching give the finding exactly once; on
the exception side the unsupported digest type gives no finding and the
detail line. -/
theorem C4_ds_dnskey_mismatch_iff_witness :
    (∃ r, estado_dnssec envC4 "ejemplo.net" = .ok r ∧
      r.hallazgos.filter (fun h => h.tipo == "ds_dnskey_mismatch")
        = [⟨"ds_dnskey_mismatch", "error", mismatchMsg⟩]) ∧
    (∃ r, estado_dnssec envC4bad "ejemplo.net" = .ok r ∧
      r.hallazgos.filter (fun h => h.tipo == "ds_dnskey_mismatch") = [] ∧
      ("Error comparando DS/DNSKEY: " ++ "UnsupportedAlgorithm") ∈ r.detalles) := by
  constructor
  · have h := (C4_ds_dnskey_mismatch_iff envC4 "ejemplo.net" rfl
      (by decide) (by decide)).1 (by decide)
    have e : matchingPairs envC4 "ejemplo.net"
        (recordsOf (recLookup envC4 "ejemplo.net" "DNSKEY"))
        (recordsOf (recLookup envC4 "ejemplo.net" "DS")) = 0 := by decide
    rw [e] at h
    simpa using h
  · exact (C4_ds_dnskey_mismatch_iff envC4bad "ejemplo.net" rfl
      (by decide) (by decide)).2 "UnsupportedAlgorithm" rfl

/-- C5: in `estado_dnssec`, `soa_firmada_valida` is tri-state: any exception
during the SOA signature-validation step yields `some false` together with
exactly one warning finding `firma_soa_invalida` carrying the failure detail,
while a missing SOA-covering RRSIG or missing DNSKEY (with the probe itself
succeeding) leaves the flag unset (`none`) with an explanatory detail-log
line and no such finding; the two outcomes are never collapsed. -/
theorem C5_soa_tristate (env : DnsEnv) (d : String) (h0 : env.fromText d = .ok ()) :
    (∀ e, soaStep env d (recLookup env d "DNSKEY") = .failed e →
      ∃ r, estado_dnssec env d = .ok r ∧ r.soa_firmada_valida = some false ∧
        r.hallazgos.filter (fun h => h.tipo == "firma_soa_invalida")
          = [⟨"firma_soa_invalida", "warning", "No se validó SOA: " ++ e⟩]) ∧
    (∀ answer, env.udpSoa d = .ok answer →
      (lastMatching (fun r => r.rdtype == "RRSIG" && r.covers == "SOA") answer = none ∨
        truthy (recLookup env d "DNSKEY") = false) →
      ∃ r, estado_dnssec env d = .ok r ∧ r.soa_firmada_valida = none ∧
        r.hallazgos.filter (fun h => h.tipo == "firma_soa_invalida") = [] ∧
        "No se pudo validar SOA (faltan RRSIG/DNSKEY en respuesta autoritativa)."
          ∈ r.detalles) := by
  have hest : estado_dnssec env d = .ok
      { dominio := d
        tiene_ds_en_padre := truthy (recLookup env d "DS")
        dnskey_algoritmos := algosDe env d
        soa_firmada_valida := soaOkDe env d
        detalles := detDs env d ++ detDnskey env d ++ detCmp env d ++ detSoa env d
        hallazgos := hallSinDnskey env d ++ hallMismatch env d ++ hallFirma env d } := by
    unfold estado_dnssec
    rw [h0]
    rfl
  have hfil1 : (hallSinDnskey env d).filter (fun h => h.tipo == "firma_soa_invalida") = [] :=
    List.filter_eq_nil_iff.2 fun x hx => by
      simp [hallSinDnskey_shape env d x hx]
  have hfil2 : (hallMismatch env d).filter (fun h => h.tipo == "firma_soa_invalida") = [] :=
    List.filter_eq_nil_iff.2 fun x hx => by
      simp [hallMismatch_shape env d x hx]
  constructor
  · intro e hfail
    refine ⟨_, hest, ?_, ?_⟩
    · simp [soaOkDe, hfail]
    · show ((hallSinDnskey env d ++ hallMismatch env d ++ hallFirma env d).filter _) = _
      rw [List.filter_append, List.filter_append, hfil1, hfil2]
      simp [hallFirma, hfail, List.filter]
  · intro answer hans hdis
    have hstep : soaStep env d (recLookup env d "DNSKEY") = .undetermined := by
      unfold soaStep
      rw [hans]
      rcases hdis with hsig | hkey
      · rcases hs : lastMatching (fun r => r.rdtype == "SOA") answer with _ | s <;>
          simp [hs, hsig]
      · rcases hs : lastMatching (fun r => r.rdtype == "SOA") answer with _ | s <;>
          rcases hg : lastMatching (fun r => r.rdtype == "RRSIG" && r.covers == "SOA") answer
            with _ | g <;>
            simp [hs, hg, hkey]
    refine ⟨_, hest, ?_, ?_, ?_⟩
    · simp [soaOkDe, hstep]
    · show ((hallSinDnskey env d ++ hallMismatch env d ++ hallFirma env d).filter _) = _
      rw [List.filter_append, List.filter_append, hfil1, hfil2]
      simp [hallFirma, hstep]
    · show _ ∈ detDs env d ++ detDnskey env d ++ detCmp env d ++ detSoa env d
      have : "No se pudo validar SOA (faltan RRSIG/DNSKEY en respuesta autoritativa)."
          ∈ detSoa env d := by
        simp [detSoa, hstep]
      simp only [List.mem_append]
      exact Or.inr this

/-- C5 witness: a raising probe gives `some false` plus exactly one
`firma_soa_invalida` finding; an empty answer (no RRSIG) gives `none`, no
finding, and the explanatory log line. -/
theorem C5_soa_tristate_witness :
    (∃ r, estado_dnssec envC5a "example.net" = .ok r ∧ r.soa_firmada_valida = some false ∧
      r.hallazgos.filter (fun h => h.tipo == "firma_soa_invalida")
        = [⟨"firma_soa_invalida", "warning", "No se validó SOA: Timeout"⟩]) ∧
    (∃ r, estado_dnssec baseEnv "example.net" = .ok r ∧ r.soa_firmada_valida = none ∧
      r.hallazgos.filter (fun h => h.tipo == "firma_soa_invalida") = [] ∧
      "No se pudo validar SOA (faltan RRSIG/DNSKEY en respuesta autoritativa)."
        ∈ r.detalles) :=
  ⟨(C5_soa_tristate envC5a "example.net" rfl).1 "Timeout" rfl,
    (C5_soa_tristate baseEnv "example.net" rfl).2 [] rfl (Or.inl rfl)⟩

/-- C7 counterexample: the claim describes the SPF extraction as stripping "a
single layer of surrounding quotes", but the source applies `strip('"')`,
which removes ALL leading and trailing quote characters.  On the TXT value
`"v=spf1 a" ""` (a two-string TXT rdata as dnspython renders it) the code
selects `v=spf1 a" ` (both trailing quotes gone) while the single-layer
reading of the claim predicts `v=spf1 a" "`; the claimed equality fails. -/
theorem C7_counterexample :
    (correo_politicas envC7 "ejemplo.com").spf = some "v=spf1 a\" " ∧
    spfSingleLayerSpec (to_str_list (recLookup envC7 "ejemplo.com" "TXT"))
      = some "v=spf1 a\" \"" ∧
    ¬ (correo_politicas envC7 "ejemplo.com").spf
        = spfSingleLayerSpec (to_str_list (recLookup envC7 "ejemplo.com" "TXT")) :=
  ⟨by decide, by decide, by decide⟩

/-- C7 (amended): in `correo_politicas`, the `spf` field equals the first
apex TXT value whose lower-cased text starts with `v=spf1` after stripping
ALL leading and trailing quote characters (Python `strip('"')`; this
coincides with stripping a single layer exactly when the value is wrapped in
one pair of quotes), and the `sin_spf` warning is emitted iff no TXT value
qualifies (spf is null). -/
theorem C7_spf_strip_all (env : DnsEnv) (d : String) :
    (correo_politicas env d).spf
      = ((to_str_list (recLookup env d "TXT")).map (pyStripChar '"')).find?
          (fun t => pyStartsWith "v=spf1" (pyLower t)) ∧
    ((∃ h ∈ (correo_politicas env d).hallazgos, h.tipo = "sin_spf" ∧ h.severidad = "warning")
      ↔ (correo_politicas env d).spf = none) := by
  constructor
  · show spfDe env d = _
    unfold spfDe buscarTxt to_str_list
    rw [List.map_map]
    rfl
  · constructor
    · rintro ⟨h, hm, htipo, hsev⟩
      have hm' : h ∈ hallSinMx env d ++ hallSinSpf env d ++ hallSinDmarc env d := hm
      rcases List.mem_append.1 hm' with hm2 | hdm
      · rcases List.mem_append.1 hm2 with hmx | hsp
        · exact absurd (hallSinMx_shape env d h hmx) (by simp [htipo])
        · unfold hallSinSpf at hsp
          have hf : pyFalsyStr (spfDe env d) = true :=
            ((mem_ite_singleton _ _).1 hsp).1
          show spfDe env d = none
          rcases hval : spfDe env d with _ | s
          · rfl
          · exfalso
            have hval2 : ((recordsOf (recLookup env d "TXT")).map
                (fun r => pyStripChar '"' r.text)).find?
                (fun t => pyStartsWith "v=spf1" (pyLower t)) = some s := hval
            have hq := List.find?_some hval2
          -- the selected value starts with `v=spf1`, hence is non-empty,
          -- contradicting its falsiness
            rw [hval] at hf
            have hse : s.data.isEmpty = true := hf
            rcases s with ⟨sdata⟩
            rcases sdata with _ | ⟨c, cs⟩
            · simp [pyStartsWith, pyLower, List.isPrefixOf] at hq
            · simp at hse
      · exact absurd (hallSinDmarc_shape env d h hdm) (by simp [htipo])
    · intro hnone
      have hf : pyFalsyStr (spfDe env d) = true := by
        have he : spfDe env d = none := hnone
        rw [he]
        rfl
      refine ⟨⟨"sin_spf", "warning", "No se encontró SPF en TXT del apex."⟩, ?_, rfl, rfl⟩
      show _ ∈ hallSinMx env d ++ hallSinSpf env d ++ hallSinDmarc env d
      have hmem : (⟨"sin_spf", "warning", "No se encontró SPF en TXT del apex."⟩ : Hallazgo)
          ∈ hallSinSpf env d := by
        simp [hallSinSpf, hf]
      simp only [List.mem_append]
      exact Or.inl (Or.inr hmem)

/-- C3 witness: the boundary environment with TTLs `[10, 40]` fires the
finding. -/
theorem C3_ttl_skew_iff_witness :
    ∃ h ∈ (salud_dns envTtl40 "x.com").hallazgos, h.tipo = "ttls_desbalanceados" :=
  C3_ttl_skew_iff.2.2.2.1

/-- C7 witness: with no TXT record at all, `spf` is null and the `sin_spf`
warning is present. -/
theorem C7_spf_strip_all_witness :
    ∃ h ∈ (correo_politicas baseEnv "x.org").hallazgos,
      h.tipo = "sin_spf" ∧ h.severidad = "warning" :=
  (C7_spf_strip_all baseEnv "x.org").2.mpr rfl

/-- C10 witness: an explicitly empty resolver list is replaced by the three
default resolvers. -/
theorem C10_empty_resolver_list_gets_defaults_witness :
    (propagacion baseEnv "w.org" (some [])).resolutores = defaultResolvers :=
  (C10_empty_resolver_list_gets_defaults baseEnv "w.org").1
